import Mathlib

/-!
A shallow embedding of the CanaryAgent market-collector package
(`canary_agent/collector/market/...`) together with proofs about its
validation, normalization, output-record and error-propagation behaviour.

Modelling conventions:
* Python values that flow through the collectors are represented by `PyVal`;
  a pandas `DataFrame` is a list of rows (`Frame`), a row being an
  association list from column name to value, which is exactly the shape
  produced by `DataFrame.to_dict(orient="records")`.  Date-indexed frames
  (as produced by `yfinance`/`pykrx`) are `IFrame`s: lists of
  (index, row) pairs.
* Python exceptions are modelled by the `PyErr` type and fallible code runs
  in `Except PyErr`.  A `PyErr` carries the exception message (`PyErr.str`).
* pydantic models are Lean structures.  Constructing a pydantic model with
  a keyword that is not a declared field silently drops that keyword
  (pydantic's default `extra="ignore"` behaviour); constructing one with a
  required field missing fails with a `validationError` naming the missing
  fields; passing a positional argument to a pydantic `BaseModel` raises a
  `TypeError`.  `model_dump` (`to_dict`) serializes in field-declaration
  order.
* External collaborators (pandas-ta, fredapi, the ECOS client, yfinance,
  pykrx) are parameters of the collector functions: structures of functions
  whose results the collectors consume, mirroring the spec's collaborator
  contracts.
-/

/-- A Python value as it appears in the collectors' data payloads. -/
inductive PyVal where
  | pnone : PyVal
  | pstr (s : String) : PyVal
  | pnum (q : ℚ) : PyVal
  | plist (xs : List PyVal) : PyVal
  | pdict (xs : List (String × PyVal)) : PyVal
  | pframe (rows : List (List (String × PyVal))) : PyVal

/-- A row of a tabular frame: column name to value, in column order. -/
abbrev Row := List (String × PyVal)

/-- A pandas DataFrame, as the list of its rows (records orientation). -/
abbrev Frame := List Row

/-- A date/ticker-indexed DataFrame: (index label, row) pairs. -/
abbrev IFrame := List (String × Row)

/-- The Python exceptions raised by the collectors and their collaborators.
Each constructor carries the exception's message. -/
inductive PyErr where
  | insufficientData (msg : String)
  | valueError (msg : String)
  | typeError (msg : String)
  | keyError (msg : String)
  | indexError (msg : String)
  | attributeError (msg : String)
  | validationError (msg : String)
  | connectionError (msg : String)
  | environmentError (msg : String)
  deriving DecidableEq

/-- `str(e)`: the message carried by an exception. -/
def PyErr.str : PyErr → String
  | .insufficientData m => m
  | .valueError m => m
  | .typeError m => m
  | .keyError m => m
  | .indexError m => m
  | .attributeError m => m
  | .validationError m => m
  | .connectionError m => m
  | .environmentError m => m

/-- The payload type `Union[Dict[str, Any], List[Dict[str, Any]]]` used by
the `data` field of several output models. -/
inductive PyData where
  | d (m : Row)
  | recs (rs : List Row)

/-- Serialize a `PyData` payload to a `PyVal`. -/
def PyData.val : PyData → PyVal
  | .d m => .pdict m
  | .recs rs => .plist (rs.map .pdict)

/-- Association-list lookup (first match), as Python dict / pandas label
lookup over our list representation. -/
def alookup {α : Type} : List (String × α) → String → Option α
  | [], _ => none
  | (k, v) :: l, key => if key = k then some v else alookup l key

/-- `row[key]`: column access on a row, raising `KeyError` when absent. -/
def rowGet (r : Row) (k : String) : Except PyErr PyVal :=
  match alookup r k with
  | some v => .ok v
  | none => .error (.keyError k)

/-- Serialize an optional string field (pydantic `Optional[str]`). -/
def serOpt : Option String → PyVal
  | none => .pnone
  | some s => .pstr s

/-- ASCII lowercase of a character, as Python `str.lower` on ASCII input. -/
def lowerChar (c : Char) : Char :=
  if 65 ≤ c.toNat ∧ c.toNat ≤ 90 then Char.ofNat (c.toNat + 32) else c

/-- Python `str.lower()` (ASCII range, which covers every key involved). -/
def pyLower (s : String) : String := ⟨s.data.map lowerChar⟩

/-- The `TypeError` message raised when a pydantic `BaseModel` receives a
positional argument. -/
def posArgMsg : String :=
  "BaseModel.__init__() takes 1 positional argument but 2 were given"

/-- The return value of a collector method with a `return_dict` flag:
either the serialized mapping or the output-model object. -/
inductive PyRet (α : Type) where
  | dict (d : PyVal)
  | model (m : α)

/-! ## Output models (`canary_agent/collector/market/output/`, pydantic) -/

/-- `TechIndicatorOutput`: declared fields are `ticker`, `data`
(`List[Dict[str, Any]]`), `start`, `end`, `interval`.  Note that the class
declares **no** `type` field. -/
structure TechIndicatorOutput where
  ticker : String
  data : List Row
  start : Option String
  end_ : Option String
  interval : Option String

/-- Constructing a `TechIndicatorOutput` with the keyword arguments used by
`TechIndicatorCollector` (including a `type=` keyword).  Because the class
declares no `type` field, pydantic's default `extra="ignore"` behaviour
silently discards the `type` argument. -/
def TechIndicatorOutput.make (ticker : String) (data : List Row)
    (_type : String) (start end_ interval : Option String) :
    TechIndicatorOutput :=
  { ticker := ticker, data := data, start := start, end_ := end_,
    interval := interval }

/-- `BaseMarketOutput.to_dict` = `model_dump`, in field-declaration order. -/
def TechIndicatorOutput.toDict (o : TechIndicatorOutput) : Row :=
  [("ticker", .pstr o.ticker), ("data", .plist (o.data.map .pdict)),
   ("start", serOpt o.start), ("end", serOpt o.end_),
   ("interval", serOpt o.interval)]

/-- pydantic validation of a required `str` field. -/
def parseStr (v : Option PyVal) : Except PyErr String :=
  match v with
  | some (.pstr s) => .ok s
  | some _ => .error (.validationError "Input should be a valid string")
  | none => .error (.validationError "Field required")

/-- pydantic validation of an `Optional[str]` field (default `None`). -/
def parseOptStr (v : Option PyVal) : Except PyErr (Option String) :=
  match v with
  | none => .ok none
  | some .pnone => .ok none
  | some (.pstr s) => .ok (some s)
  | some _ => .error (.validationError "Input should be a valid string")

/-- pydantic validation of a `List[Dict[str, Any]]` field. -/
def collectRows : List PyVal → Except PyErr (List Row)
  | [] => .ok []
  | .pdict r :: vs => (collectRows vs).map (r :: ·)
  | _ :: _ => .error (.validationError "Input should be a valid dictionary")

/-- pydantic validation of a required `List[Dict[str, Any]]` field. -/
def parseRowList (v : Option PyVal) : Except PyErr (List Row) :=
  match v with
  | some (.plist xs) => collectRows xs
  | some _ => .error (.validationError "Input should be a valid list")
  | none => .error (.validationError "Field required")

/-- pydantic validation of the `Union[Dict[str, Any], List[Dict[str, Any]]]`
payload field. -/
def parsePyData (v : Option PyVal) : Except PyErr PyData :=
  match v with
  | some (.pdict m) => .ok (.d m)
  | some (.plist xs) => (collectRows xs).map .recs
  | some _ => .error (.validationError "Input should be a valid dictionary")
  | none => .error (.validationError "Field required")

/-- Re-validating a `TechIndicatorOutput` from its serialized mapping
(pydantic construction from the `to_dict` output). -/
def TechIndicatorOutput.fromDict (d : Row) : Except PyErr TechIndicatorOutput := do
  let t ← parseStr (alookup d "ticker")
  let rows ← parseRowList (alookup d "data")
  let s ← parseOptStr (alookup d "start")
  let e ← parseOptStr (alookup d "end")
  let i ← parseOptStr (alookup d "interval")
  return { ticker := t, data := rows, start := s, end_ := e, interval := i }

/-- `IndicatorOutput` (`output/indicator_output.py`): `data` is a pandas
`DataFrame` (`arbitrary_types_allowed`), serialized by a `field_serializer`
to `data.to_dict(orient="records")`.  No `type` field is declared. -/
structure IndicatorOutput where
  ticker : String
  data : Frame
  start : Option String
  end_ : Option String
  interval : Option String

/-- `IndicatorOutput.to_dict`: `model_dump` with the `field_serializer`
turning the DataFrame into its records. -/
def IndicatorOutput.toDict (o : IndicatorOutput) : Row :=
  [("ticker", .pstr o.ticker), ("data", .plist (o.data.map .pdict)),
   ("start", serOpt o.start), ("end", serOpt o.end_),
   ("interval", serOpt o.interval)]

/-- pydantic validation of the `data: pd.DataFrame` field: with
`arbitrary_types_allowed` this is an `isinstance` check, so anything that
is not an actual DataFrame (in particular the list of records produced by
serialization) is rejected. -/
def parseFrame (v : Option PyVal) : Except PyErr Frame :=
  match v with
  | some (.pframe rows) => .ok rows
  | some _ => .error (.validationError "Input should be an instance of DataFrame")
  | none => .error (.validationError "Field required")

/-- Re-validating an `IndicatorOutput` from a mapping. -/
def IndicatorOutput.fromDict (d : Row) : Except PyErr IndicatorOutput := do
  let t ← parseStr (alookup d "ticker")
  let df ← parseFrame (alookup d "data")
  let s ← parseOptStr (alookup d "start")
  let e ← parseOptStr (alookup d "end")
  let i ← parseOptStr (alookup d "interval")
  return { ticker := t, data := df, start := s, end_ := e, interval := i }

/-- `MacroIndicatorOutput`: `ticker`, `data` (dict-or-records union) and
`type` are required; `start` and `end` are optional. -/
structure MacroIndicatorOutput where
  ticker : String
  data : PyData
  type : String
  start : Option String
  end_ : Option String

/-- pydantic `ValidationError` message naming the missing required fields. -/
def missingMsg (missing : List String) : String :=
  "Field required: " ++ String.intercalate ", " missing

/-- Keyword construction of a `MacroIndicatorOutput`: `none` stands for an
omitted keyword; required fields that are omitted make pydantic raise a
`ValidationError` naming them. -/
def MacroIndicatorOutput.make (ticker : Option String) (data : Option PyData)
    (type : Option String) (start : Option String := none)
    (end_ : Option String := none) : Except PyErr MacroIndicatorOutput :=
  match ticker, data, type with
  | some t, some d, some ty =>
      .ok { ticker := t, data := d, type := ty, start := start, end_ := end_ }
  | ot, od, oty =>
      .error (.validationError (missingMsg
        ((if ot.isSome then [] else ["ticker"])
          ++ (if od.isSome then [] else ["data"])
          ++ (if oty.isSome then [] else ["type"]))))

/-- `MacroIndicatorOutput.to_dict` (`model_dump`), field-declaration order. -/
def MacroIndicatorOutput.toDict (o : MacroIndicatorOutput) : Row :=
  [("ticker", .pstr o.ticker), ("data", o.data.val), ("type", .pstr o.type),
   ("start", serOpt o.start), ("end", serOpt o.end_)]

/-- Re-validating a `MacroIndicatorOutput` from its serialized mapping. -/
def MacroIndicatorOutput.fromDict (d : Row) :
    Except PyErr MacroIndicatorOutput := do
  let t ← parseStr (alookup d "ticker")
  let da ← parsePyData (alookup d "data")
  let ty ← parseStr (alookup d "type")
  let s ← parseOptStr (alookup d "start")
  let e ← parseOptStr (alookup d "end")
  return { ticker := t, data := da, type := ty, start := s, end_ := e }

/-- `KRShortOutput`: `ticker`, `data` (union), `type` required;
`start`/`end` optional. -/
structure KRShortOutput where
  ticker : String
  data : PyData
  type : String
  start : Option String
  end_ : Option String

/-- `KRShortOutput.to_dict` (`model_dump`). -/
def KRShortOutput.toDict (o : KRShortOutput) : Row :=
  [("ticker", .pstr o.ticker), ("data", o.data.val), ("type", .pstr o.type),
   ("start", serOpt o.start), ("end", serOpt o.end_)]

/-- `USShortOutput`: `ticker` and a plain `Dict` payload. -/
structure USShortOutput where
  ticker : String
  data : Row

/-- `USShortOutput.to_dict` (`model_dump`). -/
def USShortOutput.toDict (o : USShortOutput) : Row :=
  [("ticker", .pstr o.ticker), ("data", .pdict o.data)]

/-- The `OHLCVOutput` defined locally in `ohlcv_collector.py`: `ticker`,
`type`, a DataFrame `data`, and optional time settings.  Its `to_dict`
dumps all non-`data` fields then appends `data` as records (so `data`
comes last in the mapping). -/
structure OHLCVOutput where
  ticker : String
  type : String
  data : Frame
  start : Option String
  end_ : Option String
  interval : Option String

/-- `OHLCVOutput.to_dict`: `model_dump(exclude={"data"})` then
`d["data"] = data.to_dict(orient="records")`. -/
def OHLCVOutput.toDict (o : OHLCVOutput) : Row :=
  [("ticker", .pstr o.ticker), ("type", .pstr o.type),
   ("start", serOpt o.start), ("end", serOpt o.end_),
   ("interval", serOpt o.interval), ("data", .plist (o.data.map .pdict))]

/-! ## Technical indicator collectors (`tech_indicator_collector.py`,
`indicator_collector.py`) -/

/-- The pandas-ta collaborator: each call appends indicator columns to the
frame (`append=True`); the indicator math itself is external. -/
structure TALib where
  sma : Nat → Frame → Frame
  ema : Nat → Frame → Frame
  rsi : Nat → Frame → Frame
  macd : Frame → Frame
  bbands : Nat → ℚ → Frame → Frame
  atr : Nat → Frame → Frame
  obv : Frame → Frame
  smaOn : String → Nat → Frame → Frame

/-- The column-rename mapping passed to `df.rename(columns=...)`:
each label is renamed if it is a key of the mapping, otherwise kept. -/
def renameColumn (c : String) : String :=
  if c = "Open" then "open"
  else if c = "High" then "high"
  else if c = "Low" then "low"
  else if c = "Close" then "close"
  else if c = "Volume" then "volume"
  else c

/-- `TechIndicatorCollector._normalize_columns`: `df.rename(columns={...})`,
which returns a new frame with labels renamed (the caller's frame is left
untouched — the call sites additionally pass `df.copy()`). -/
def TechIndicatorCollector._normalize_columns (df : Frame) : Frame :=
  df.map (fun r => r.map (fun p => (renameColumn p.1, p.2)))

/-- `TechIndicatorCollector._validate_min_rows`: raises
`InsufficientDataError` when the frame has fewer rows than required, with
the f-string message carrying the indicator label and both counts. -/
def TechIndicatorCollector._validate_min_rows (df : Frame) (required : Nat)
    (indicator_name : String) : Except PyErr Unit :=
  if df.length < required then
    .error (.insufficientData (indicator_name ++ " requires at least "
      ++ toString required ++ " rows, but got " ++ toString df.length ++ "."))
  else
    .ok ()

/-- `TechIndicatorCollector.trend`: normalize, validate against
`max(sma + ema)` (Python `max` raises on an empty sequence), append the
SMA and EMA columns, and wrap `out.to_dict(orient="records")` into a
`TechIndicatorOutput` with a `type='trend'` keyword. -/
def TechIndicatorCollector.trend (ta : TALib) (ticker : String) (df : Frame)
    (sma : List Nat := [20, 60]) (ema : List Nat := [12, 26])
    (start : Option String := none) (end_ : Option String := none)
    (interval : Option String := none) (return_dict : Bool := false) :
    Except PyErr (PyRet TechIndicatorOutput) := do
  let out := TechIndicatorCollector._normalize_columns df
  let min_required ← match (sma ++ ema).max? with
    | some m => pure m
    | none => throw (.valueError "max() arg is an empty sequence")
  TechIndicatorCollector._validate_min_rows out min_required
    "Trend indicators (SMA/EMA)"
  let out := sma.foldl (fun acc w => ta.sma w acc) out
  let out := ema.foldl (fun acc w => ta.ema w acc) out
  let output := TechIndicatorOutput.make ticker out "trend" start end_ interval
  return if return_dict then .dict (.pdict output.toDict) else .model output

/-- `TechIndicatorCollector.momentum`: threshold `rsi + 1`, raised to 26
when MACD is requested. -/
def TechIndicatorCollector.momentum (ta : TALib) (ticker : String) (df : Frame)
    (rsi : Nat := 14) (macd : Bool := true)
    (start : Option String := none) (end_ : Option String := none)
    (interval : Option String := none) (return_dict : Bool := false) :
    Except PyErr (PyRet TechIndicatorOutput) := do
  let out := TechIndicatorCollector._normalize_columns df
  let min_required := rsi + 1
  let min_required := if macd then Nat.max min_required 26 else min_required
  TechIndicatorCollector._validate_min_rows out min_required
    "Momentum indicators (RSI/MACD)"
  let out := ta.rsi rsi out
  let out := if macd then ta.macd out else out
  let output := TechIndicatorOutput.make ticker out "momentum" start end_ interval
  return if return_dict then .dict (.pdict output.toDict) else .model output

/-- `TechIndicatorCollector.volatility`: threshold `max(bb_window, atr)`. -/
def TechIndicatorCollector.volatility (ta : TALib) (ticker : String) (df : Frame)
    (bb_window : Nat := 20) (bb_std : ℚ := 2) (atr : Nat := 14)
    (start : Option String := none) (end_ : Option String := none)
    (interval : Option String := none) (return_dict : Bool := false) :
    Except PyErr (PyRet TechIndicatorOutput) := do
  let out := TechIndicatorCollector._normalize_columns df
  let min_required := Nat.max bb_window atr
  TechIndicatorCollector._validate_min_rows out min_required
    "Volatility indicators (BBANDS/ATR)"
  let out := ta.bbands bb_window bb_std out
  let out := ta.atr atr out
  let output := TechIndicatorOutput.make ticker out "volatility" start end_ interval
  return if return_dict then .dict (.pdict output.toDict) else .model output

/-- `TechIndicatorCollector.volume`: threshold `vma`. -/
def TechIndicatorCollector.volume (ta : TALib) (ticker : String) (df : Frame)
    (obv : Bool := true) (vma : Nat := 20)
    (start : Option String := none) (end_ : Option String := none)
    (interval : Option String := none) (return_dict : Bool := false) :
    Except PyErr (PyRet TechIndicatorOutput) := do
  let out := TechIndicatorCollector._normalize_columns df
  TechIndicatorCollector._validate_min_rows out vma
    "Volume indicators (OBV/VMA)"
  let out := if obv then ta.obv out else out
  let out := ta.smaOn "volume" vma out
  let output := TechIndicatorOutput.make ticker out "volume" start end_ interval
  return if return_dict then .dict (.pdict output.toDict) else .model output

/-- `IndicatorCollector.trend` (`indicator_collector.py`): same pipeline,
but the `IndicatorOutput` is built without any `type` keyword, `data` is
the DataFrame itself, and `return_dict` defaults to `True`. -/
def IndicatorCollector.trend (ta : TALib) (ticker : String) (df : Frame)
    (sma : List Nat := [20, 60]) (ema : List Nat := [12, 26])
    (start : Option String := none) (end_ : Option String := none)
    (interval : Option String := none) (return_dict : Bool := true) :
    Except PyErr (PyRet IndicatorOutput) := do
  let out := TechIndicatorCollector._normalize_columns df
  let min_required ← match (sma ++ ema).max? with
    | some m => pure m
    | none => throw (.valueError "max() arg is an empty sequence")
  TechIndicatorCollector._validate_min_rows out min_required
    "Trend indicators (SMA/EMA)"
  let out := sma.foldl (fun acc w => ta.sma w acc) out
  let out := ema.foldl (fun acc w => ta.ema w acc) out
  let output : IndicatorOutput :=
    { ticker := ticker, data := out, start := start, end_ := end_,
      interval := interval }
  return if return_dict then .dict (.pdict output.toDict) else .model output

/-! ## Macro collectors (`macro_indicator_collector.py`).
`IndicatorCollector` reuses `_normalize_columns`/`_validate_min_rows`
definitions that are verbatim identical in its own source file. -/

/-- A fetched series: (index label, value) pairs, `none` marking NaN
(dropped by `dropna()`). -/
abbrev Series := List (String × Option ℚ)

/-- The fredapi collaborator: `get_series(series_id, observation_start,
observation_end)`. -/
structure FredClient where
  getSeries : String → Option String → Option String → Except PyErr Series

/-- `USMacroIndicatorCollector.INDICATORS`. -/
def USMacroIndicatorCollector.INDICATORS : List (String × String) :=
  [("cpi", "CPIAUCSL"), ("core_cpi", "CPILFESL"), ("core_pce", "PCEPILFE"),
   ("gdp", "GDPC1"), ("industrial_production", "INDPRO"),
   ("unemployment_rate", "UNRATE"), ("nonfarm_payrolls", "PAYEMS"),
   ("federal_funds_rate", "FEDFUNDS"), ("10_year_bonds", "DGS10"),
   ("2_year_bonds", "DGS2"), ("vix", "VIXCLS"), ("nfci", "NFCI")]

/-- `USMacroIndicatorCollector.keys()`. -/
def USMacroIndicatorCollector.keys : List String :=
  USMacroIndicatorCollector.INDICATORS.map Prod.fst

/-- `USMacroIndicatorCollector.can_search`: membership of the lowercased
key in the recognized set. -/
def USMacroIndicatorCollector.can_search (key : String) : Bool :=
  USMacroIndicatorCollector.keys.contains (pyLower key)

/-- `series.dropna().to_frame(name=key).reset_index()
.rename(columns={"index": "date"})`: drop NaN entries and build rows
`{date: index, key: value}`. -/
def seriesToFrame (key : String) (s : Series) : Frame :=
  (s.filterMap (fun p => p.2.map (fun q => (p.1, q)))).map
    (fun p => [("date", PyVal.pstr p.1), (key, PyVal.pnum p.2)])

/-- `USMacroIndicatorCollector.latest`: lowercase the key, reject
unrecognized keys with `ValueError`, fetch the series, take the last row
(`iloc[-1]` raises `IndexError` on an empty frame) and wrap it with
`type='latest'`. -/
def USMacroIndicatorCollector.latest (fred : FredClient)
    (key : String := "gdp") (return_dict : Bool := false) :
    Except PyErr (PyRet MacroIndicatorOutput) := do
  let key := pyLower key
  if USMacroIndicatorCollector.can_search key = false then
    throw (.valueError (key ++ " is not valid type."))
  let series_id ← match alookup USMacroIndicatorCollector.INDICATORS key with
    | some s => pure s
    | none => throw (.keyError key)
  let series ← fred.getSeries series_id none none
  let df := seriesToFrame key series
  let out ← match df.getLast? with
    | some r => pure r
    | none => throw (.indexError "single positional indexer is out-of-bounds")
  let output ← MacroIndicatorOutput.make (some key) (some (.d out))
    (some "latest")
  return if return_dict then .dict (.pdict output.toDict) else .model output

/-- `USMacroIndicatorCollector.between`: on an empty upstream series it
returns the bare `{"error": "empty"}` mapping when `return_dict` is set,
and otherwise evaluates `self.ticker` — an attribute the collector never
defines — raising `AttributeError` before the record is built. -/
def USMacroIndicatorCollector.between (fred : FredClient)
    (key : String := "gdp") (start : Option String := none)
    (end_ : Option String := none) (return_dict : Bool := false) :
    Except PyErr (PyRet MacroIndicatorOutput) := do
  let key := pyLower key
  if USMacroIndicatorCollector.can_search key = false then
    throw (.valueError (key ++ " is not valid type."))
  let series_id ← match alookup USMacroIndicatorCollector.INDICATORS key with
    | some s => pure s
    | none => throw (.keyError key)
  let series ← fred.getSeries series_id start end_
  match series with
  | [] =>
      if return_dict then
        return .dict (.pdict [("error", .pstr "empty")])
      else
        throw (.attributeError "ticker")
  | _ =>
      let df := seriesToFrame key series
      let output ← MacroIndicatorOutput.make (some key) (some (.recs df))
        (some "between") start end_
      return if return_dict then .dict (.pdict output.toDict) else .model output

/-- The ECOS collaborator used by the KR macro collector:
`get_series(stat_code, item1, item2, item3, start, end, cycle)` returning a
date/value frame. -/
structure ECOSClientM where
  getSeries : String → String → String → String → Option String →
    Option String → String → Except PyErr Frame

/-- `KRMacroIndicatorCollector.INDICATORS` (stat code, item codes, cycle). -/
def KRMacroIndicatorCollector.INDICATORS :
    List (String × (String × String × String × String × String)) :=
  [("cpi", ("301Y001", "10101", "", "", "M")),
   ("core_cpi", ("301Y002", "10101", "", "", "M")),
   ("core_pce", ("302Y001", "10101", "", "", "M")),
   ("gdp", ("101Y001", "10001", "", "", "Q")),
   ("industrial_production", ("111Y001", "10001", "", "", "M")),
   ("unemployment_rate", ("331Y001", "10001", "", "", "M")),
   ("nonfarm_payrolls", ("351Y001", "10001", "", "", "M")),
   ("federal_funds_rate", ("015Y001", "10001", "", "", "M")),
   ("10_year_bonds", ("101Y010", "10001", "", "", "M")),
   ("2_year_bonds", ("101Y009", "10001", "", "", "M"))]

/-- `KRMacroIndicatorCollector.keys()`. -/
def KRMacroIndicatorCollector.keys : List String :=
  KRMacroIndicatorCollector.INDICATORS.map Prod.fst

/-- `KRMacroIndicatorCollector.can_search`. -/
def KRMacroIndicatorCollector.can_search (key : String) : Bool :=
  KRMacroIndicatorCollector.keys.contains (pyLower key)

/-- The `KRMacroIndicatorCollector` object state after construction: which
client fields are assigned.  An attribute that was never assigned reads as
`none` (a Python `AttributeError` on access). -/
structure KRMacroState where
  ecos : Option ECOSClientM
  client : Option ECOSClientM

/-- `KRMacroIndicatorCollector.__init__`: assigns `self.ecos` (the ECOS
client) and nothing else — in particular `self.client` is never assigned. -/
def KRMacroIndicatorCollector.init (c : ECOSClientM) : KRMacroState :=
  { ecos := some c, client := none }

/-- Attribute access `self.client`. -/
def KRMacroState.getClient (st : KRMacroState) : Except PyErr ECOSClientM :=
  match st.client with
  | some c => .ok c
  | none => .error (.attributeError "client")

/-- `KRMacroIndicatorCollector.latest`: key check, then
`self.client.get_series(...)`; an empty frame returns the
`{"error": "empty"}` marker (with `type="latest"` in the record), a
non-empty frame builds a `MacroIndicatorOutput` **without** a `type`
keyword. -/
def KRMacroIndicatorCollector.latest (st : KRMacroState)
    (key : String := "gdp") (return_dict : Bool := false) :
    Except PyErr (PyRet MacroIndicatorOutput) := do
  let key := pyLower key
  if KRMacroIndicatorCollector.can_search key = false then
    throw (.valueError (key ++ " is not valid type."))
  let codes ← match alookup KRMacroIndicatorCollector.INDICATORS key with
    | some t => pure t
    | none => throw (.keyError key)
  let (stat_code, item1, item2, item3, cycle) := codes
  let client ← st.getClient
  let df ← client.getSeries stat_code item1 item2 item3 none none cycle
  match df.getLast? with
  | none =>
      if return_dict then
        return .dict (.pdict [("error", .pstr "empty")])
      else
        let output ← MacroIndicatorOutput.make (some key)
          (some (.d [("error", .pstr "empty")])) (some "latest")
        return .model output
  | some out =>
      let output ← MacroIndicatorOutput.make (some key) (some (.d out)) none
      return if return_dict then .dict (.pdict output.toDict) else .model output

/-- `KRMacroIndicatorCollector.between`: key check, then
`self.client.get_series(...)` with the range; the record is built
**without** a `type` keyword. -/
def KRMacroIndicatorCollector.between (st : KRMacroState)
    (key : String := "gdp") (start : Option String := none)
    (end_ : Option String := none) (return_dict : Bool := false) :
    Except PyErr (PyRet MacroIndicatorOutput) := do
  let key := pyLower key
  if KRMacroIndicatorCollector.can_search key = false then
    throw (.valueError (key ++ " is not valid type."))
  let codes ← match alookup KRMacroIndicatorCollector.INDICATORS key with
    | some t => pure t
    | none => throw (.keyError key)
  let (stat_code, item1, item2, item3, cycle) := codes
  let client ← st.getClient
  let df ← client.getSeries stat_code item1 item2 item3 start end_ cycle
  let output ← MacroIndicatorOutput.make (some key) (some (.recs df)) none
    start end_
  return if return_dict then .dict (.pdict output.toDict) else .model output

/-! ## OHLCV collector (`ohlcv_collector.py`) -/

/-- `reset_index()` on a date-indexed download: the index becomes a leading
`Date` column. -/
def resetIndex (df : IFrame) : Frame :=
  df.map (fun p => ("Date", PyVal.pstr p.1) :: p.2)

/-- `OHLCVCollector.latest`: download one month of daily data (the download
result is the collaborator parameter `dl`), raise `ValueError` when it is
empty, otherwise wrap the last row with `type="latest"`. -/
def OHLCVCollector.latest (dl : Except PyErr IFrame) (ticker : String)
    (return_dict : Bool := true) : Except PyErr (PyRet OHLCVOutput) := do
  let df ← dl
  if df.isEmpty then
    throw (.valueError ("No OHLCV data for ticker: " ++ ticker))
  let latest_df := resetIndex (df.drop (df.length - 1))
  let output : OHLCVOutput :=
    { ticker := ticker, type := "latest", data := latest_df,
      start := none, end_ := none, interval := none }
  return if return_dict then .dict (.pdict output.toDict) else .model output

/-- `OHLCVCollector.between`: download the range, raise `ValueError` when
the result is empty, otherwise wrap with `type="between"`. -/
def OHLCVCollector.between (dl : Except PyErr IFrame) (ticker start end_ : String)
    (interval : String := "1d") (return_dict : Bool := true) :
    Except PyErr (PyRet OHLCVOutput) := do
  let df ← dl
  if df.isEmpty then
    throw (.valueError ("No OHLCV data for ticker: " ++ ticker))
  let df := resetIndex df
  let output : OHLCVOutput :=
    { ticker := ticker, type := "between", data := df,
      start := some start, end_ := some end_, interval := some interval }
  return if return_dict then .dict (.pdict output.toDict) else .model output

/-! ## Short collectors (`short_collector.py`) -/

/-- `USShortCollector.latest`: a ticker-info lookup (the collaborator's
result is the parameter `info`); missing keys default to `'N/A'` via
`info.get`. -/
def USShortCollector.latest (info : Except PyErr Row) (ticker : String)
    (return_dict : Bool := true) : Except PyErr (PyRet USShortOutput) := do
  let i ← info
  let g := fun k => (alookup i k).getD (.pstr "N/A")
  let data : Row :=
    [("sharesShort", g "sharesShort"), ("shortRatio", g "shortRatio"),
     ("shortPercentOfFloat", g "shortPercentOfFloat"),
     ("dateShortInterest", g "dateShortInterest"),
     ("sharesPercentSharesOut", g "sharesPercentSharesOut"),
     ("sharesShortPriorMonth", g "sharesShortPriorMonth")]
  let output : USShortOutput := { ticker := ticker, data := data }
  return if return_dict then .dict (.pdict output.toDict) else .model output

/-- The pykrx collaborator used by `KRShortCollector`. -/
structure PykrxStock where
  nearestBusinessDay : Except PyErr String
  shortingBalanceByDate : String → String → String → Except PyErr IFrame
  shortingVolumeByTicker : String → Except PyErr IFrame
  shortingVolumeByDate : String → String → String → Except PyErr IFrame

/-- Python `int(x)` on a numeric value (truncation toward zero). -/
def pyIntV (v : PyVal) : Except PyErr PyVal :=
  match v with
  | .pnum q => .ok (.pnum (if q < 0 then (⌈q⌉ : ℤ) else (⌊q⌋ : ℤ)))
  | _ => .error (.typeError "int() argument must be a number")

/-- Python `float(x)` on a numeric value. -/
def pyFloatV (v : PyVal) : Except PyErr PyVal :=
  match v with
  | .pnum q => .ok (.pnum q)
  | _ => .error (.typeError "float() argument must be a number")

/-- The body of `KRShortCollector.latest` (the code inside the `try`
block). -/
def KRShortCollector.latestBody (px : PykrxStock) (ticker : String)
    (return_dict : Bool) : Except PyErr (PyRet KRShortOutput) := do
  let today ← px.nearestBusinessDay
  let bal ← px.shortingBalanceByDate today today ticker
  match bal with
  | [] =>
      if return_dict then
        return .dict (.pdict [("error", .pstr "empty")])
      else
        -- `KRShortOutput(self.ticker, data=..., type='latest')` passes the
        -- ticker positionally to a pydantic BaseModel: TypeError.
        throw (.typeError posArgMsg)
  | (_, row) :: _ =>
      let vol ← px.shortingVolumeByTicker today
      let shortVolume ← match alookup vol ticker with
        | some vr => rowGet vr "공매도거래량"
        | none => pure PyVal.pnone
      let sharesShort ← pyIntV (← rowGet row "공매도잔고")
      let ratio ← pyFloatV (← rowGet row "비중")
      let marketCap ← pyIntV (← rowGet row "시가총액")
      let data : Row :=
        [("sharesShort", sharesShort), ("shortRatio", ratio),
         ("shortPercentOfFloat", ratio), ("sharesPercentSharesOut", ratio),
         ("date", .pstr today), ("sharesShortPriorMonth", .pnone),
         ("shortVolume", shortVolume), ("marketCap", marketCap)]
      let output : KRShortOutput :=
        { ticker := ticker, data := .d data, type := "latest",
          start := none, end_ := none }
      return if return_dict then .dict (.pdict output.toDict) else .model output

/-- `KRShortCollector.latest`: the whole body runs inside
`try: ... except Exception as e:`; the handler returns
`{"error": str(e)}` as a bare dict when `return_dict` is set, and otherwise
again passes the ticker positionally to `KRShortOutput`, raising
`TypeError`. -/
def KRShortCollector.latest (px : PykrxStock) (ticker : String)
    (return_dict : Bool := true) : Except PyErr (PyRet KRShortOutput) :=
  match KRShortCollector.latestBody px ticker return_dict with
  | .ok v => .ok v
  | .error e =>
      if return_dict then
        .ok (.dict (.pdict [("error", .pstr e.str)]))
      else
        .error (.typeError posArgMsg)

/-- `df[[c₁, c₂, ...]]` column selection followed by a rename: produce the
row restricted to the given columns under their new names (missing columns
raise `KeyError`). -/
def selectRename (cols : List (String × String)) (r : Row) :
    Except PyErr Row :=
  cols.mapM (fun p => do pure (p.2, ← rowGet r p.1))

/-- `KRShortCollector.between`: fetch balance and volume frames, return a
record with an **empty dict** payload when the balance frame is empty;
otherwise select/rename the balance columns, left-join the volume column
on the date index (missing dates giving NaN), duplicate the ratio column
into the percent fields, add a null prior-month field and the date, and
wrap with `type='between'`. -/
def KRShortCollector.between (px : PykrxStock) (ticker start end_ : String)
    (return_dict : Bool := true) : Except PyErr (PyRet KRShortOutput) := do
  let bal ← px.shortingBalanceByDate start end_ ticker
  let vol ← px.shortingVolumeByDate start end_ ticker
  let data ← match bal with
    | [] => pure (PyData.d [])
    | _ => do
        let bal2 ← bal.mapM (fun p => do
          pure (p.1, ← selectRename
            [("공매도잔고", "sharesShort"), ("비중", "shortRatio"),
             ("시가총액", "marketCap")] p.2))
        let vol2 ← vol.mapM (fun p => do
          pure (p.1, ← selectRename [("공매도거래량", "shortVolume")] p.2))
        let joined := bal2.map (fun p =>
          (p.1, p.2 ++ (alookup vol2 p.1).getD [("shortVolume", .pnone)]))
        let rows ← joined.mapM (fun p => do
          let ratio ← rowGet p.2 "shortRatio"
          pure (p.2 ++ [("shortPercentOfFloat", ratio),
            ("sharesPercentSharesOut", ratio),
            ("sharesShortPriorMonth", PyVal.pnone),
            ("date", PyVal.pstr p.1)]))
        pure (PyData.recs rows)
  let output : KRShortOutput :=
    { ticker := ticker, data := data, type := "between",
      start := some start, end_ := some end_ }
  return if return_dict then .dict (.pdict output.toDict) else .model output

/-! ## Concrete collaborator instances used to evaluate the model -/

/-- A pandas-ta instance that appends one named indicator column (holding a
placeholder value) to every row, as `append=True` does. -/
def taApp : TALib where
  sma := fun w f => f.map (fun r => r ++ [("SMA_" ++ toString w, .pnum 0)])
  ema := fun w f => f.map (fun r => r ++ [("EMA_" ++ toString w, .pnum 0)])
  rsi := fun w f => f.map (fun r => r ++ [("RSI_" ++ toString w, .pnum 0)])
  macd := fun f => f.map (fun r => r ++ [("MACD_12_26_9", .pnum 0)])
  bbands := fun w _ f => f.map (fun r => r ++ [("BBL_" ++ toString w, .pnum 0)])
  atr := fun w f => f.map (fun r => r ++ [("ATRr_" ++ toString w, .pnum 0)])
  obv := fun f => f.map (fun r => r ++ [("OBV", .pnum 0)])
  smaOn := fun _ w f => f.map (fun r => r ++ [("SMA_" ++ toString w, .pnum 0)])

/-- A fred client holding one observation for every series. -/
def goodFred : FredClient where
  getSeries := fun _ _ _ => .ok [("2020-01-01", some 1)]

/-- A fred client whose every series is empty. -/
def emptyFred : FredClient where
  getSeries := fun _ _ _ => .ok []

/-- A fred client that raises `e` on every call. -/
def failingFred (e : PyErr) : FredClient where
  getSeries := fun _ _ _ => .error e

/-- An ECOS client holding one observation for every series. -/
def ecosStub : ECOSClientM where
  getSeries := fun _ _ _ _ _ _ _ =>
    .ok [[("date", .pstr "2020-01-01"), ("value", .pnum 1)]]

/-- A pykrx source with empty balance/volume frames. -/
def pykrxEmpty : PykrxStock where
  nearestBusinessDay := .ok "20240102"
  shortingBalanceByDate := fun _ _ _ => .ok []
  shortingVolumeByTicker := fun _ => .ok []
  shortingVolumeByDate := fun _ _ _ => .ok []

/-- A pykrx source whose business-day lookup raises a connection error. -/
def pykrxBoom : PykrxStock where
  nearestBusinessDay := .error (.connectionError "boom")
  shortingBalanceByDate := fun _ _ _ => .ok []
  shortingVolumeByTicker := fun _ => .ok []
  shortingVolumeByDate := fun _ _ _ => .ok []

/-- A pykrx source whose balance fetch raises `e`. -/
def pykrxBalFail (e : PyErr) : PykrxStock where
  nearestBusinessDay := .ok "20240102"
  shortingBalanceByDate := fun _ _ _ => .error e
  shortingVolumeByTicker := fun _ => .ok []
  shortingVolumeByDate := fun _ _ _ => .ok []

/-- A pykrx source whose volume-by-date fetch raises `e`. -/
def pykrxVolFail (e : PyErr) : PykrxStock where
  nearestBusinessDay := .ok "20240102"
  shortingBalanceByDate := fun _ _ _ =>
    .ok [("20240102", [("공매도잔고", .pnum 10), ("비중", .pnum 1),
      ("시가총액", .pnum 100)])]
  shortingVolumeByTicker := fun _ => .ok []
  shortingVolumeByDate := fun _ _ _ => .error e

/-! ## Helper lemmas -/

theorem collectRows_map (rs : List Row) :
    collectRows (rs.map .pdict) = .ok rs := by
  induction rs with
  | nil => rfl
  | cons r rs ih => simp [collectRows, ih, Except.map]

theorem parseOptStr_serOpt (os : Option String) :
    parseOptStr (some (serOpt os)) = .ok os := by
  cases os <;> rfl

theorem renameColumn_idem (c : String) :
    renameColumn (renameColumn c) = renameColumn c := by
  unfold renameColumn
  split_ifs <;> simp_all

theorem normalizeColumns_idem (df : Frame) :
    TechIndicatorCollector._normalize_columns
      (TechIndicatorCollector._normalize_columns df)
      = TechIndicatorCollector._normalize_columns df := by
  unfold TechIndicatorCollector._normalize_columns
  simp only [List.map_map]
  refine List.map_congr_left (fun r _ => ?_)
  simp only [Function.comp, List.map_map]
  refine List.map_congr_left (fun p _ => ?_)
  simp [renameColumn_idem]

theorem normalizeColumns_length (df : Frame) :
    (TechIndicatorCollector._normalize_columns df).length = df.length := by
  simp [TechIndicatorCollector._normalize_columns]

theorem alookup_of_contains {α : Type} (l : List (String × α)) (k : String)
    (h : (l.map Prod.fst).contains k = true) : ∃ v, alookup l k = some v := by
  induction l with
  | nil => simp at h
  | cons p l ih =>
      by_cases hk : k = p.1
      · exact ⟨p.2, by simp [alookup, hk]⟩
      · have : (l.map Prod.fst).contains k = true := by
          simp only [List.map_cons, List.contains_cons] at h
          rcases Bool.or_eq_true_iff.mp h with h1 | h1
          · exact absurd (by simpa using h1) hk
          · exact h1
        rcases ih this with ⟨v, hv⟩
        exact ⟨v, by simp [alookup, hk, hv]⟩

/-! ## Claims -/

theorem lowerChar_idem (c : Char) : lowerChar (lowerChar c) = lowerChar c := by
  unfold lowerChar
  by_cases h : 65 ≤ c.toNat ∧ c.toNat ≤ 90
  · rw [if_pos h]
    obtain ⟨h1, h2⟩ := h
    set n := c.toNat with hn
    interval_cases n <;> decide
  · rw [if_neg h, if_neg h]

theorem pyLower_idem (s : String) : pyLower (pyLower s) = pyLower s := by
  unfold pyLower
  simp only [List.map_map]
  exact congrArg String.mk (List.map_congr_left (fun c _ => lowerChar_idem c))

/-- C1: the row-sufficiency validator `_validate_min_rows` fails with
`InsufficientDataError` exactly when the frame has fewer rows than
required, and the message carries the label and both counts; consequently
each indicator family invoked with exactly its required number of rows
passes validation and returns a record, while fewer rows fail with
`InsufficientDataError` — for `trend` with `sma=[20,60]`, `ema=[12,26]`
the threshold is 60, a 59-row frame fails with a message naming
"Trend indicators" and "59", and a 60-row frame succeeds. -/
theorem C1_row_sufficiency (df : Frame) (required : Nat) (label : String)
    (ta : TALib) (ticker : String) (sma ema : List Nat)
    (m rsi bb atr vma : Nat) (macd obv : Bool) (bstd : ℚ)
    (s e i : Option String) (rd : Bool)
    (hm : (sma ++ ema).max? = some m) :
    (TechIndicatorCollector._validate_min_rows df required label
       = if df.length < required then
           .error (.insufficientData (label ++ " requires at least "
             ++ toString required ++ " rows, but got "
             ++ toString df.length ++ "."))
         else .ok ())
    ∧ (df.length = m →
        ∃ o, TechIndicatorCollector.trend ta ticker df sma ema s e i rd = .ok o)
    ∧ (df.length < m →
        TechIndicatorCollector.trend ta ticker df sma ema s e i rd
          = .error (.insufficientData
              ("Trend indicators (SMA/EMA) requires at least "
                ++ toString m ++ " rows, but got "
                ++ toString df.length ++ ".")))
    ∧ (df.length = (if macd then Nat.max (rsi + 1) 26 else rsi + 1) →
        ∃ o, TechIndicatorCollector.momentum ta ticker df rsi macd s e i rd
          = .ok o)
    ∧ (df.length < (if macd then Nat.max (rsi + 1) 26 else rsi + 1) →
        ∃ msg, TechIndicatorCollector.momentum ta ticker df rsi macd s e i rd
          = .error (.insufficientData msg))
    ∧ (df.length = Nat.max bb atr →
        ∃ o, TechIndicatorCollector.volatility ta ticker df bb bstd atr s e i rd
          = .ok o)
    ∧ (df.length < Nat.max bb atr →
        ∃ msg, TechIndicatorCollector.volatility ta ticker df bb bstd atr s e i rd
          = .error (.insufficientData msg))
    ∧ (df.length = vma →
        ∃ o, TechIndicatorCollector.volume ta ticker df obv vma s e i rd = .ok o)
    ∧ (df.length < vma →
        ∃ msg, TechIndicatorCollector.volume ta ticker df obv vma s e i rd
          = .error (.insufficientData msg)) := by
  refine ⟨rfl, ?_, ?_, ?_, ?_, ?_, ?_, ?_, ?_⟩ <;> intro h <;>
    simp [TechIndicatorCollector.trend, TechIndicatorCollector.momentum,
      TechIndicatorCollector.volatility, TechIndicatorCollector.volume, hm,
      TechIndicatorCollector._validate_min_rows, normalizeColumns_length, h,
      Except.bind, bind, pure, Except.pure]

/-- C1 witness: the trend family with `sma=[20,60]`, `ema=[12,26]`
succeeds on exactly 60 rows, fails on 59 rows with the message naming
"Trend indicators" and "59", and each family succeeds at exactly its
threshold and fails just below it. -/
theorem C1_row_sufficiency_witness :
    (∃ o, TechIndicatorCollector.trend taApp "T" (List.replicate 60 [])
        [20, 60] [12, 26] none none none false = .ok o)
    ∧ (TechIndicatorCollector.trend taApp "T" (List.replicate 59 [])
        [20, 60] [12, 26] none none none false
        = .error (.insufficientData
            "Trend indicators (SMA/EMA) requires at least 60 rows, but got 59."))
    ∧ (∃ o, TechIndicatorCollector.momentum taApp "T" (List.replicate 26 [])
        14 true none none none false = .ok o)
    ∧ (∃ msg, TechIndicatorCollector.momentum taApp "T" (List.replicate 25 [])
        14 true none none none false = .error (.insufficientData msg))
    ∧ (∃ o, TechIndicatorCollector.volatility taApp "T" (List.replicate 20 [])
        20 2 14 none none none false = .ok o)
    ∧ (∃ msg, TechIndicatorCollector.volatility taApp "T" (List.replicate 19 [])
        20 2 14 none none none false = .error (.insufficientData msg))
    ∧ (∃ o, TechIndicatorCollector.volume taApp "T" (List.replicate 20 [])
        true 20 none none none false = .ok o)
    ∧ (∃ msg, TechIndicatorCollector.volume taApp "T" (List.replicate 19 [])
        true 20 none none none false = .error (.insufficientData msg)) :=
  ⟨(C1_row_sufficiency (List.replicate 60 []) 0 "" taApp "T" [20, 60] [12, 26]
      60 14 20 14 20 true true 2 none none none false rfl).2.1 rfl,
   (C1_row_sufficiency (List.replicate 59 []) 0 "" taApp "T" [20, 60] [12, 26]
      60 14 20 14 20 true true 2 none none none false rfl).2.2.1 (by decide),
   (C1_row_sufficiency (List.replicate 26 []) 0 "" taApp "T" [20, 60] [12, 26]
      60 14 20 14 20 true true 2 none none none false rfl).2.2.2.1 rfl,
   (C1_row_sufficiency (List.replicate 25 []) 0 "" taApp "T" [20, 60] [12, 26]
      60 14 20 14 20 true true 2 none none none false rfl).2.2.2.2.1 (by decide),
   (C1_row_sufficiency (List.replicate 20 []) 0 "" taApp "T" [20, 60] [12, 26]
      60 14 20 14 20 true true 2 none none none false rfl).2.2.2.2.2.1 rfl,
   (C1_row_sufficiency (List.replicate 19 []) 0 "" taApp "T" [20, 60] [12, 26]
      60 14 20 14 20 true true 2 none none none false rfl).2.2.2.2.2.2.1 (by decide),
   (C1_row_sufficiency (List.replicate 20 []) 0 "" taApp "T" [20, 60] [12, 26]
      60 14 20 14 20 true true 2 none none none false rfl).2.2.2.2.2.2.2.1 rfl,
   (C1_row_sufficiency (List.replicate 19 []) 0 "" taApp "T" [20, 60] [12, 26]
      60 14 20 14 20 true true 2 none none none false rfl).2.2.2.2.2.2.2.2 (by decide)⟩

/-- C4: the momentum family's required-row threshold is `rsi + 1`, raised
to 26 when MACD is requested: below the threshold `momentum` fails with
`InsufficientDataError` (message carrying the threshold and the row
count), at or above it validation passes and a record is returned —
in particular with `rsi=14, macd=True` the threshold is 26, so 25 rows
fail and 26 rows succeed. -/
theorem C4_momentum_threshold (ta : TALib) (ticker : String) (df : Frame)
    (rsi : Nat) (macd : Bool) (s e i : Option String) (rd : Bool) :
    (df.length < (if macd then Nat.max (rsi + 1) 26 else rsi + 1) →
      TechIndicatorCollector.momentum ta ticker df rsi macd s e i rd
        = .error (.insufficientData
            ("Momentum indicators (RSI/MACD) requires at least "
              ++ toString (if macd then Nat.max (rsi + 1) 26 else rsi + 1)
              ++ " rows, but got " ++ toString df.length ++ ".")))
    ∧ ((if macd then Nat.max (rsi + 1) 26 else rsi + 1) ≤ df.length →
      ∃ o, TechIndicatorCollector.momentum ta ticker df rsi macd s e i rd
        = .ok o) := by
  constructor <;> intro h <;>
    simp [TechIndicatorCollector.momentum,
      TechIndicatorCollector._validate_min_rows, normalizeColumns_length, h,
      Nat.not_lt.mpr h, Except.bind, bind, pure, Except.pure]

/-- C4 witness: with `rsi=14, macd=True`, 25 rows fail with
`InsufficientDataError` and 26 rows succeed. -/
theorem C4_momentum_threshold_witness :
    (TechIndicatorCollector.momentum taApp "T" (List.replicate 25 [])
        14 true none none none false
      = .error (.insufficientData
          "Momentum indicators (RSI/MACD) requires at least 26 rows, but got 25."))
    ∧ (∃ o, TechIndicatorCollector.momentum taApp "T" (List.replicate 26 [])
        14 true none none none false = .ok o) :=
  ⟨(C4_momentum_threshold taApp "T" (List.replicate 25 []) 14 true
      none none none false).1 (by decide),
   (C4_momentum_threshold taApp "T" (List.replicate 26 []) 14 true
      none none none false).2 (by decide)⟩

/-- C5: column normalization renames exactly the identifiers
`Open/High/Low/Close/Volume` to their lowercase forms, leaves every other
column label untouched, acts label-wise on a fresh frame (the rename
returns a new frame, so the caller's input is not mutated — in this pure
embedding `_normalize_columns` is a function of its input), and is
idempotent. -/
theorem C5_normalize_columns (df : Frame) (c : String)
    (hc : c ∉ ["Open", "High", "Low", "Close", "Volume"]) :
    (renameColumn "Open" = "open" ∧ renameColumn "High" = "high"
      ∧ renameColumn "Low" = "low" ∧ renameColumn "Close" = "close"
      ∧ renameColumn "Volume" = "volume")
    ∧ renameColumn c = c
    ∧ (TechIndicatorCollector._normalize_columns df
        = df.map (fun r => r.map (fun p => (renameColumn p.1, p.2))))
    ∧ (TechIndicatorCollector._normalize_columns
        (TechIndicatorCollector._normalize_columns df)
        = TechIndicatorCollector._normalize_columns df) := by
  refine ⟨⟨rfl, rfl, rfl, rfl, rfl⟩, ?_, rfl, normalizeColumns_idem df⟩
  simp only [List.mem_cons, List.not_mem_nil, or_false] at hc
  push_neg at hc
  obtain ⟨h1, h2, h3, h4, h5⟩ := hc
  simp [renameColumn, h1, h2, h3, h4, h5]

/-- C5 witness: a frame with OHLCV and one extra column normalizes with
only the five identifiers renamed, and normalizing twice equals
normalizing once. -/
theorem C5_normalize_columns_witness :
    renameColumn "AdjClose" = "AdjClose"
    ∧ (TechIndicatorCollector._normalize_columns
        (TechIndicatorCollector._normalize_columns
          [[("Open", .pnum 1), ("AdjClose", .pnum 2)]])
        = TechIndicatorCollector._normalize_columns
            [[("Open", .pnum 1), ("AdjClose", .pnum 2)]]) :=
  ⟨(C5_normalize_columns [] "AdjClose" (by decide)).2.1,
   (C5_normalize_columns [[("Open", .pnum 1), ("AdjClose", .pnum 2)]]
      "AdjClose" (by decide)).2.2.2⟩

/-- C7: `KRMacroIndicatorCollector.__init__` assigns the ECOS client to
`self.ecos` and never assigns `self.client`; since `between` (like
`latest`) delegates through `self.client`, every call with a recognized
key fails with `AttributeError` on the unassigned field before the ECOS
client is ever consulted — the result is the same whichever client the
collector was constructed with. -/
theorem C7_unassigned_client (c c2 : ECOSClientM) (key : String)
    (s e : Option String) (rd : Bool)
    (hk : KRMacroIndicatorCollector.keys.contains (pyLower key) = true) :
    (KRMacroIndicatorCollector.init c).ecos = some c
    ∧ (KRMacroIndicatorCollector.init c).client = none
    ∧ KRMacroIndicatorCollector.between (KRMacroIndicatorCollector.init c)
        key s e rd = .error (.attributeError "client")
    ∧ KRMacroIndicatorCollector.between (KRMacroIndicatorCollector.init c)
        key s e rd
      = KRMacroIndicatorCollector.between (KRMacroIndicatorCollector.init c2)
          key s e rd := by
  have hbetween : ∀ c' : ECOSClientM,
      KRMacroIndicatorCollector.between (KRMacroIndicatorCollector.init c')
        key s e rd = .error (.attributeError "client") := by
    intro c'
    obtain ⟨codes, hcodes⟩ :=
      alookup_of_contains KRMacroIndicatorCollector.INDICATORS (pyLower key) hk
    obtain ⟨s1, s2, s3, s4, s5⟩ := codes
    have hk' : pyLower (pyLower key) ∈ KRMacroIndicatorCollector.keys := by
      rw [pyLower_idem]
      simpa using hk
    simp [KRMacroIndicatorCollector.between, KRMacroIndicatorCollector.can_search,
      hk', hcodes, KRMacroIndicatorCollector.init, KRMacroState.getClient,
      Except.bind, bind, pure, Except.pure]
  exact ⟨rfl, rfl, hbetween c, by rw [hbetween c, hbetween c2]⟩

/-- C7 witness: with a concrete ECOS client and the recognized key
`"gdp"`, the freshly constructed collector's `between` fails with
`AttributeError` on `client`, which `__init__` left unassigned. -/
theorem C7_unassigned_client_witness :
    (KRMacroIndicatorCollector.init ecosStub).client = none
    ∧ KRMacroIndicatorCollector.between (KRMacroIndicatorCollector.init ecosStub)
        "gdp" none none false = .error (.attributeError "client") :=
  ⟨(C7_unassigned_client ecosStub ecosStub "gdp" none none false (by decide)).2.1,
   (C7_unassigned_client ecosStub ecosStub "gdp" none none false (by decide)).2.2.1⟩

/-- C10: `MacroIndicatorOutput` declares `type` as a required field, but
the KR macro collector's `latest` (non-empty path) and `between` construct
the record without a `type` keyword; hence whenever the client field is
assigned and working (so that the code reaches record construction with
fetched data), both paths fail with a pydantic `ValidationError` naming
the missing `type` field instead of returning a record. -/
theorem C10_missing_type_field (st : KRMacroState) (c : ECOSClientM)
    (hc : st.client = some c) (key : String)
    (hk : KRMacroIndicatorCollector.keys.contains (pyLower key) = true)
    (s e : Option String) (rd : Bool)
    (hfetch : ∀ a b b2 b3 os oe cyc, ∃ r rs,
      c.getSeries a b b2 b3 os oe cyc = .ok (r :: rs)) :
    KRMacroIndicatorCollector.latest st key rd
      = .error (.validationError (missingMsg ["type"]))
    ∧ KRMacroIndicatorCollector.between st key s e rd
      = .error (.validationError (missingMsg ["type"])) := by
  obtain ⟨codes, hcodes⟩ :=
    alookup_of_contains KRMacroIndicatorCollector.INDICATORS (pyLower key) hk
  obtain ⟨s1, s2, s3, s4, s5⟩ := codes
  have hk' : pyLower (pyLower key) ∈ KRMacroIndicatorCollector.keys := by
    rw [pyLower_idem]
    simpa using hk
  constructor
  · obtain ⟨r, rs, hr⟩ := hfetch s1 s2 s3 s4 none none s5
    simp [KRMacroIndicatorCollector.latest, KRMacroIndicatorCollector.can_search,
      hk', hcodes, hc, hr, KRMacroState.getClient, MacroIndicatorOutput.make,
      List.getLast?, Except.bind, bind, pure, Except.pure]
  · obtain ⟨r, rs, hr⟩ := hfetch s1 s2 s3 s4 s e s5
    simp [KRMacroIndicatorCollector.between, KRMacroIndicatorCollector.can_search,
      hk', hcodes, hc, hr, KRMacroState.getClient, MacroIndicatorOutput.make,
      Except.bind, bind, pure, Except.pure]

/-- C10 witness: a KR macro collector state whose `client` field holds a
working ECOS client still fails both `latest` and `between` with the
pydantic `ValidationError` for the missing required `type` field. -/
theorem C10_missing_type_field_witness :
    KRMacroIndicatorCollector.latest
        { ecos := some ecosStub, client := some ecosStub } "gdp" false
      = .error (.validationError (missingMsg ["type"]))
    ∧ KRMacroIndicatorCollector.between
        { ecos := some ecosStub, client := some ecosStub } "gdp" none none false
      = .error (.validationError (missingMsg ["type"])) :=
  C10_missing_type_field { ecos := some ecosStub, client := some ecosStub }
    ecosStub rfl "gdp" (by decide) none none false
    (fun _ _ _ _ _ _ _ => ⟨_, _, rfl⟩)

/-- A two-row close-price frame used to evaluate the indicator families. -/
def dfC2 : Frame := [[("Close", .pnum 1)], [("Close", .pnum 2)]]

/-- The record returned by `trend` on `dfC2` with `sma=[2]`, `ema=[2]`. -/
def trendOutC2 : TechIndicatorOutput where
  ticker := "T"
  data := [[("close", .pnum 1), ("SMA_2", .pnum 0), ("EMA_2", .pnum 0)],
           [("close", .pnum 2), ("SMA_2", .pnum 0), ("EMA_2", .pnum 0)]]
  start := none
  end_ := none
  interval := none

/-- The record returned by `momentum` on `dfC2` with `rsi=1, macd=False`. -/
def momentumOutC2 : TechIndicatorOutput where
  ticker := "T"
  data := [[("close", .pnum 1), ("RSI_1", .pnum 0)],
           [("close", .pnum 2), ("RSI_1", .pnum 0)]]
  start := none
  end_ := none
  interval := none

/-- The record returned by `volatility` on `dfC2` with windows 2/2. -/
def volatilityOutC2 : TechIndicatorOutput where
  ticker := "T"
  data := [[("close", .pnum 1), ("BBL_2", .pnum 0), ("ATRr_2", .pnum 0)],
           [("close", .pnum 2), ("BBL_2", .pnum 0), ("ATRr_2", .pnum 0)]]
  start := none
  end_ := none
  interval := none

/-- The record returned by `volume` on `dfC2` with `obv=True, vma=2`. -/
def volumeOutC2 : TechIndicatorOutput where
  ticker := "T"
  data := [[("close", .pnum 1), ("OBV", .pnum 0), ("SMA_2", .pnum 0)],
           [("close", .pnum 2), ("OBV", .pnum 0), ("SMA_2", .pnum 0)]]
  start := none
  end_ := none
  interval := none

/-- C2: the indicator families do append their columns and return the full
row sequence as `data`, but the resulting record carries **no** `type`
field: `TechIndicatorOutput` (and `IndicatorOutput`) declare no such
field, so the `type='trend'/...` keyword passed by every family is
silently dropped by pydantic, and the serialized mapping of any such
record has no "type" entry. -/
theorem C2_type_field_dropped :
    (∀ t d ty1 ty2 s e i, TechIndicatorOutput.make t d ty1 s e i
        = TechIndicatorOutput.make t d ty2 s e i)
    ∧ (∀ o : TechIndicatorOutput, alookup o.toDict "type" = none)
    ∧ (∀ o : IndicatorOutput, alookup o.toDict "type" = none)
    ∧ (TechIndicatorCollector.trend taApp "T" dfC2 [2] [2] none none none false
        = .ok (.model trendOutC2))
    ∧ (TechIndicatorCollector.momentum taApp "T" dfC2 1 false none none none false
        = .ok (.model momentumOutC2))
    ∧ (TechIndicatorCollector.volatility taApp "T" dfC2 2 2 2 none none none false
        = .ok (.model volatilityOutC2))
    ∧ (TechIndicatorCollector.volume taApp "T" dfC2 true 2 none none none false
        = .ok (.model volumeOutC2))
    ∧ (IndicatorCollector.trend taApp "T" dfC2 [2] [2] none none none true
        = .ok (.dict (.pdict [("ticker", .pstr "T"),
            ("data", .plist
              [.pdict [("close", .pnum 1), ("SMA_2", .pnum 0), ("EMA_2", .pnum 0)],
               .pdict [("close", .pnum 2), ("SMA_2", .pnum 0), ("EMA_2", .pnum 0)]]),
            ("start", .pnone), ("end", .pnone), ("interval", .pnone)]))) :=
  ⟨fun _ _ _ _ _ _ _ => rfl, fun _ => rfl, fun _ => rfl,
   rfl, rfl, rfl, rfl, rfl⟩

/-- C3 counterexample: an empty upstream result on the OHLCV collector's
ranged query raises `ValueError` instead of yielding an Output Record with
an `{"error": "empty"}` marker, refuting the claim that ranged queries
never raise on emptiness. -/
theorem C3_counterexample :
    OHLCVCollector.between (.ok []) "T" "2020-01-01" "2020-01-02" "1d" true
      = .error (.valueError "No OHLCV data for ticker: T") := rfl

/-- C3 amended: empty-result handling is per-collector.  The US macro
collector's `between` yields the bare `{"error": "empty"}` mapping in
dict mode but fails with `AttributeError` on the undefined `self.ticker`
in model mode; the KR short collector's `between` returns a record whose
`data` is an empty mapping; the OHLCV collector's `between` raises
`ValueError`; and the KR central-bank collector's `between` fails on its
unassigned `client` field before emptiness is ever examined. -/
theorem C3_empty_result_handling :
    (USMacroIndicatorCollector.between emptyFred "gdp"
        (some "2020-01-01") (some "2020-01-02") true
      = .ok (.dict (.pdict [("error", .pstr "empty")])))
    ∧ (USMacroIndicatorCollector.between emptyFred "gdp"
        (some "2020-01-01") (some "2020-01-02") false
      = .error (.attributeError "ticker"))
    ∧ (KRShortCollector.between pykrxEmpty "005930" "20240101" "20240105" false
      = .ok (.model { ticker := "005930", data := .d [], type := "between",
                      start := some "20240101", end_ := some "20240105" }))
    ∧ (OHLCVCollector.between (.ok []) "T" "2020-01-01" "2020-01-02" "1d" false
      = .error (.valueError "No OHLCV data for ticker: T"))
    ∧ (KRMacroIndicatorCollector.between
        (KRMacroIndicatorCollector.init ecosStub) "gdp"
        (some "2020-01") (some "2020-12") false
      = .error (.attributeError "client")) :=
  ⟨rfl, rfl, rfl, rfl, rfl⟩

/-- C6 counterexample: `KRShortCollector.latest` swallows a collaborator
failure — its `try/except Exception` converts a `ConnectionError` raised
by the business-day lookup into a successfully returned
`{"error": "boom"}` payload instead of propagating the exception. -/
theorem C6_counterexample :
    KRShortCollector.latest pykrxBoom "005930" true
      = .ok (.dict (.pdict [("error", .pstr "boom")])) := rfl

/-- C6 amended: every other modelled collector operation propagates its
collaborators' failures unchanged (and insufficient-row validation errors
propagate out of the indicator families); only `KRShortCollector.latest`
catches exceptions, returning them as an error payload inside a
successful result, and only empty results are converted to sentinel
values. -/
theorem C6_error_propagation (e : PyErr) (ta : TALib) (ticker : String)
    (s en : String) (iv : String) (os oe : Option String) (rd : Bool) :
    (OHLCVCollector.latest (.error e) ticker rd = .error e)
    ∧ (OHLCVCollector.between (.error e) ticker s en iv rd = .error e)
    ∧ (USShortCollector.latest (.error e) ticker rd = .error e)
    ∧ (USMacroIndicatorCollector.latest (failingFred e) "gdp" rd = .error e)
    ∧ (USMacroIndicatorCollector.between (failingFred e) "cpi" os oe rd
        = .error e)
    ∧ (KRShortCollector.between (pykrxBalFail e) ticker s en rd = .error e)
    ∧ (KRShortCollector.between (pykrxVolFail e) ticker s en rd = .error e)
    ∧ (TechIndicatorCollector.trend ta ticker [] [20, 60] [12, 26]
        none none none rd
        = .error (.insufficientData
            "Trend indicators (SMA/EMA) requires at least 60 rows, but got 0.")) :=
  ⟨rfl, rfl, rfl, rfl, rfl, rfl, rfl, rfl⟩

/-- The record returned by the US macro `latest` for `gdp` under
`goodFred`. -/
def gdpLatestOut : MacroIndicatorOutput where
  ticker := "gdp"
  data := .d [("date", .pstr "2020-01-01"), ("gdp", .pnum 1)]
  type := "latest"
  start := none
  end_ := none

/-- C8: on both macro collectors, `latest` and `between` reject any key
whose lowercase form is not recognized with the `ValueError` "<key> is not
valid type.", and recognition is case-insensitive — the operations depend
only on the lowercased key, so "GDP" and "gdp" behave identically and
resolve to the same series; on the US collector a working client then
returns a record and nothing is raised, but on the KR collector even the
recognized key "GDP" raises `AttributeError` (the unassigned `client`
field) instead of never raising. -/
theorem C8_unknown_key_case_insensitive (c : FredClient) (st : KRMacroState)
    (k k1 k2 : String) (os oe : Option String) (rd : Bool) :
    (pyLower k1 = pyLower k2 →
      USMacroIndicatorCollector.latest c k1 rd
          = USMacroIndicatorCollector.latest c k2 rd
        ∧ USMacroIndicatorCollector.between c k1 os oe rd
          = USMacroIndicatorCollector.between c k2 os oe rd
        ∧ KRMacroIndicatorCollector.latest st k1 rd
          = KRMacroIndicatorCollector.latest st k2 rd
        ∧ KRMacroIndicatorCollector.between st k1 os oe rd
          = KRMacroIndicatorCollector.between st k2 os oe rd)
    ∧ (USMacroIndicatorCollector.keys.contains (pyLower k) = false →
      USMacroIndicatorCollector.latest c k rd
          = .error (.valueError (pyLower k ++ " is not valid type."))
        ∧ USMacroIndicatorCollector.between c k os oe rd
          = .error (.valueError (pyLower k ++ " is not valid type.")))
    ∧ (KRMacroIndicatorCollector.keys.contains (pyLower k) = false →
      KRMacroIndicatorCollector.latest st k rd
          = .error (.valueError (pyLower k ++ " is not valid type."))
        ∧ KRMacroIndicatorCollector.between st k os oe rd
          = .error (.valueError (pyLower k ++ " is not valid type.")))
    ∧ (USMacroIndicatorCollector.latest goodFred "GDP" false
        = USMacroIndicatorCollector.latest goodFred "gdp" false)
    ∧ (USMacroIndicatorCollector.latest goodFred "GDP" false
        = .ok (.model gdpLatestOut))
    ∧ (KRMacroIndicatorCollector.latest
        (KRMacroIndicatorCollector.init ecosStub) "GDP" false
        = .error (.attributeError "client")) := by
  refine ⟨?_, ?_, ?_, rfl, rfl, rfl⟩
  · intro h
    refine ⟨?_, ?_, ?_, ?_⟩
    · simp only [USMacroIndicatorCollector.latest]
      rw [h]
    · simp only [USMacroIndicatorCollector.between]
      rw [h]
    · simp only [KRMacroIndicatorCollector.latest]
      rw [h]
    · simp only [KRMacroIndicatorCollector.between]
      rw [h]
  · intro h
    have h' : pyLower k ∉ USMacroIndicatorCollector.keys := by simpa using h
    constructor <;>
      (simp [USMacroIndicatorCollector.latest, USMacroIndicatorCollector.between,
        USMacroIndicatorCollector.can_search, pyLower_idem, h,
        Except.bind, bind, pure, Except.pure]
       intro hmem
       exact absurd hmem h')
  · intro h
    have h' : pyLower k ∉ KRMacroIndicatorCollector.keys := by simpa using h
    constructor <;>
      (simp [KRMacroIndicatorCollector.latest, KRMacroIndicatorCollector.between,
        KRMacroIndicatorCollector.can_search, pyLower_idem, h,
        Except.bind, bind, pure, Except.pure]
       intro hmem
       exact absurd hmem h')

/-- C8 witness: "GDP" and "gdp" behave identically (and succeed on the US
collector with a working client), while the unrecognized key "doge" is
rejected with `ValueError` on both collectors. -/
theorem C8_unknown_key_case_insensitive_witness :
    (USMacroIndicatorCollector.latest goodFred "GDP" false
      = USMacroIndicatorCollector.latest goodFred "gdp" false)
    ∧ (USMacroIndicatorCollector.latest goodFred "doge" false
      = .error (.valueError "doge is not valid type."))
    ∧ (KRMacroIndicatorCollector.between
        (KRMacroIndicatorCollector.init ecosStub) "doge" none none false
      = .error (.valueError "doge is not valid type.")) :=
  ⟨((C8_unknown_key_case_insensitive goodFred
      (KRMacroIndicatorCollector.init ecosStub) "doge" "GDP" "gdp"
      none none false).1 rfl).1,
   ((C8_unknown_key_case_insensitive goodFred
      (KRMacroIndicatorCollector.init ecosStub) "doge" "GDP" "gdp"
      none none false).2.1 rfl).1,
   ((C8_unknown_key_case_insensitive goodFred
      (KRMacroIndicatorCollector.init ecosStub) "doge" "GDP" "gdp"
      none none false).2.2.1 rfl).2⟩

/-- A concrete DataFrame-backed `IndicatorOutput` record. -/
def c9rec : IndicatorOutput where
  ticker := "t"
  data := [[("close", .pnum 1)]]
  start := none
  end_ := none
  interval := none

/-- C9 counterexample: a DataFrame-backed `IndicatorOutput` does not
round-trip — its `to_dict` serializes the frame to a list of row mappings
(via the `field_serializer`), and re-validating that mapping fails because
the declared `data: pd.DataFrame` field rejects a list. -/
theorem C9_counterexample :
    IndicatorOutput.fromDict (IndicatorOutput.toDict c9rec)
      = .error (.validationError "Input should be an instance of DataFrame") :=
  rfl

/-- C9 amended: output records whose `data` field is plain (the mapping or
record-list payloads of `TechIndicatorOutput` and `MacroIndicatorOutput`)
round-trip exactly — constructing, serializing with `to_dict` and
re-validating preserves `ticker`, `type` (where declared), `start`, `end`,
`interval` and the `data` content and ordering — whereas every
DataFrame-backed `IndicatorOutput` fails re-validation after
serialization. -/
theorem C9_roundtrip :
    (∀ o : TechIndicatorOutput, TechIndicatorOutput.fromDict o.toDict = .ok o)
    ∧ (∀ o : MacroIndicatorOutput, MacroIndicatorOutput.fromDict o.toDict = .ok o)
    ∧ (∀ o : IndicatorOutput, IndicatorOutput.fromDict o.toDict
        = .error (.validationError "Input should be an instance of DataFrame")) := by
  refine ⟨?_, ?_, ?_⟩
  · rintro ⟨t, data, s, e, i⟩
    simp [TechIndicatorOutput.toDict, TechIndicatorOutput.fromDict, alookup,
      parseStr, parseRowList, collectRows_map, parseOptStr_serOpt,
      Except.bind, bind, pure, Except.pure]
  · rintro ⟨t, data, ty, s, e⟩
    cases data <;>
      simp [MacroIndicatorOutput.toDict, MacroIndicatorOutput.fromDict, alookup,
        parseStr, parsePyData, PyData.val, collectRows_map, parseOptStr_serOpt,
        Except.bind, bind, pure, Except.pure, Except.map]
  · rintro ⟨t, data, s, e, i⟩
    simp [IndicatorOutput.toDict, IndicatorOutput.fromDict, alookup,
      parseStr, parseFrame, Except.bind, bind, pure, Except.pure]
